import Mathlib

set_option maxHeartbeats 1000000

/-!
Verification of the census market-data aggregation engine
(`app/services/census_service.py`, `app/services/data_processor.py`,
`app/schemas/population.py`).

Numeric values are modelled exactly: Python ints as `ℤ`, Python floats as
`ℚ` (or `ℝ` where a real exponentiation occurs).  Python `round(x, n)` is
modelled with Mathlib's `round` (round-half-up); no claim exercises a tie,
where Python's bankers rounding would differ.
-/

/-- A numeric cell of a fetched variable map: `none` models Python `None`
(missing or suppressed), `some q` a numeric value. -/
abbrev Val := Option ℚ

/-- A fetched variable map, modelling a Python `dict` from variable codes to
numeric-or-`None` values.  Lookup takes the first matching binding. -/
abbrev VariableMap := List (String × Val)

/-- Python `m.get(k)`: `none` when the key is absent or bound to `None`. -/
def pyGet (m : VariableMap) (k : String) : Val :=
  ((m.find? (fun p => p.1 == k)).map Prod.snd).join

/-- Python `m.get(k, d)`: the default applies only when the key is absent;
a binding to `None` is returned as `none`. -/
def pyGetD (m : VariableMap) (k : String) (d : ℚ) : Val :=
  match m.find? (fun p => p.1 == k) with
  | none => some d
  | some p => p.2

/-- Python truthiness of a numeric-or-`None` value: `None` and `0` are falsy. -/
def truthyVal : Val → Bool
  | none => false
  | some q => q != 0

/-- Python `round(x, 1)`. -/
def round1 (x : ℚ) : ℚ := (round (x * 10) : ℤ) / 10

/-- Python `round(x, 2)` on a rational. -/
def round2q (x : ℚ) : ℚ := (round (x * 100) : ℤ) / 100

/-- Python `round(x, 2)` on a real. -/
noncomputable def round2r (x : ℝ) : ℝ := ((round (x * 100) : ℤ) : ℝ) / 100

/-- `safe_div_percent` from `DataProcessor.format_response_data`
(`data_processor.py` lines 78-81): `None` when the denominator is `None`
or `0` or the numerator is `None`, else `round(numerator/denominator*100, 1)`. -/
def safe_div_percent (numerator denominator : Val) : Val :=
  if denominator = none ∨ denominator = some 0 ∨ numerator = none then none
  else some (round1 (numerator.getD 0 / denominator.getD 0 * 100))

/-- `CensusService._chunk_variables` (`census_service.py` lines 257-259):
`[vars[i:i + chunk_size] for i in range(0, len(vars), chunk_size)]`.
The model returns `[]` for `chunk_size = 0`, where Python `range` raises;
every claim restricts to positive widths. -/
def chunk_variables (vars : List String) (chunk_size : ℕ) : List (List String) :=
  if h : chunk_size = 0 ∨ vars = [] then []
  else
    vars.take chunk_size :: chunk_variables (vars.drop chunk_size) chunk_size
termination_by vars.length
decreasing_by
  have h1 : chunk_size ≠ 0 ∧ vars ≠ [] := by
    constructor <;> intro hc <;> exact h (by simp [hc])
  have h2 : 0 < vars.length := List.length_pos.mpr h1.2
  have h3 : chunk_size ≠ 0 := h1.1
  simp only [List.length_drop]
  omega

theorem chunk_variables_cons (l : List String) (W : ℕ) (hW : W ≠ 0) (hl : l ≠ []) :
    chunk_variables l W = l.take W :: chunk_variables (l.drop W) W := by
  rw [chunk_variables]
  simp [hW, hl]

theorem chunk_variables_nil (W : ℕ) : chunk_variables [] W = [] := by
  rw [chunk_variables]
  simp

-- Helper lemmas for the chunking round-trip (claim C9).

theorem chunk_variables_flatten (W : ℕ) (hW : 0 < W) :
    ∀ (n : ℕ) (l : List String), l.length ≤ n → (chunk_variables l W).flatten = l := by
  intro n
  induction n with
  | zero =>
    intro l hl
    have : l = [] := List.length_eq_zero.mp (Nat.le_zero.mp hl)
    subst this
    simp [chunk_variables_nil]
  | succ n ih =>
    intro l hl
    by_cases hnil : l = []
    · subst hnil; simp [chunk_variables_nil]
    · rw [chunk_variables_cons l W hW.ne' hnil]
      have hlen : (l.drop W).length ≤ n := by
        have h1 : 0 < l.length := List.length_pos.mpr hnil
        simp only [List.length_drop]
        omega
      rw [List.flatten_cons, ih (l.drop W) hlen]
      exact List.take_append_drop W l

theorem chunk_variables_length_le (W : ℕ) :
    ∀ (n : ℕ) (l : List String), l.length ≤ n →
      ∀ c ∈ chunk_variables l W, c.length ≤ W := by
  intro n
  induction n with
  | zero =>
    intro l hl c hc
    have : l = [] := List.length_eq_zero.mp (Nat.le_zero.mp hl)
    subst this
    simp [chunk_variables_nil] at hc
  | succ n ih =>
    intro l hl c hc
    by_cases hW : W = 0
    · subst hW
      rw [chunk_variables] at hc
      simp at hc
    by_cases hnil : l = []
    · subst hnil; simp [chunk_variables_nil] at hc
    · rw [chunk_variables_cons l W hW hnil] at hc
      rcases List.mem_cons.mp hc with h | h
      · subst h
        simpa using Nat.min_le_left W l.length
      · have hlen : (l.drop W).length ≤ n := by
          have h1 : 0 < l.length := List.length_pos.mpr hnil
          simp only [List.length_drop]
          omega
        exact ih (l.drop W) hlen c h

theorem chunk_variables_count (W : ℕ) (hW : 0 < W) :
    ∀ (n : ℕ) (l : List String), l.length ≤ n →
      (chunk_variables l W).length = (l.length + W - 1) / W := by
  intro n
  induction n with
  | zero =>
    intro l hl
    have : l = [] := List.length_eq_zero.mp (Nat.le_zero.mp hl)
    subst this
    simp [chunk_variables_nil, Nat.div_eq_of_lt (show W - 1 < W by omega)]
  | succ n ih =>
    intro l hl
    by_cases hnil : l = []
    · subst hnil
      simp [chunk_variables_nil, Nat.div_eq_of_lt (show W - 1 < W by omega)]
    · rw [chunk_variables_cons l W hW.ne' hnil]
      have h1 : 0 < l.length := List.length_pos.mpr hnil
      have hlen : (l.drop W).length ≤ n := by
        simp only [List.length_drop]
        omega
      simp only [List.length_cons, ih (l.drop W) hlen, List.length_drop]
      rcases Nat.lt_or_ge l.length W with hc | hc
      · have e1 : l.length - W = 0 := by omega
        rw [e1]
        have e2 : (0 + W - 1) / W = 0 := Nat.div_eq_of_lt (by omega)
        rw [e2]
        have e3 : (l.length + W - 1) / W = 1 := by
          have := Nat.div_eq_of_lt_le (by omega : 1 * W ≤ l.length + W - 1)
            (by omega : l.length + W - 1 < (1 + 1) * W)
          omega
        omega
      · have e1 : l.length + W - 1 = (l.length - W + W - 1) + W := by omega
        rw [e1, Nat.add_div_right _ hW]

/-- Bridge: the natural-number formula `(n + W - 1) / W` is the ceiling of
`n / W`. -/
theorem nat_ceil_div_formula (n W : ℕ) (hW : 0 < W) :
    (((n + W - 1) / W : ℕ) : ℤ) = ⌈(n : ℚ) / (W : ℚ)⌉ := by
  set q := (n + W - 1) / W with hq
  have hmul : q * W ≤ n + W - 1 := Nat.div_mul_le_self (n + W - 1) W
  have hlt : n + W - 1 < (q + 1) * W :=
    (Nat.div_lt_iff_lt_mul hW).mp (Nat.lt_succ_self q)
  rw [Nat.succ_mul] at hlt
  have hA : q * W < n + W := by omega
  have hB : n ≤ q * W := by omega
  have hWQ : (0 : ℚ) < (W : ℚ) := by exact_mod_cast hW
  symm
  rw [Int.ceil_eq_iff]
  constructor
  · rw [lt_div_iff hWQ]
    have hA2 : (q : ℚ) * W < (n : ℚ) + W := by exact_mod_cast hA
    have e : ((q : ℤ) - 1 : ℚ) * W = (q : ℚ) * W - W := by push_cast; ring
    rw [e]
    linarith
  · rw [div_le_iff hWQ]
    have hB2 : (n : ℚ) ≤ (q : ℚ) * W := by exact_mod_cast hB
    push_cast
    linarith

/-- C9: for every list of variable codes and every positive width `W`, the
chunker returns sub-sequences in original order whose concatenation equals
the input, every chunk has length at most `W`, and the number of chunks is
`ceil(n / W)`; the function is a total Lean function (no failure mode). -/
theorem claim_C9_chunking_roundtrip (l : List String) (W : ℕ) (hW : 0 < W) :
    (chunk_variables l W).flatten = l
    ∧ (∀ c ∈ chunk_variables l W, c.length ≤ W)
    ∧ (chunk_variables l W).length = (l.length + W - 1) / W
    ∧ (((chunk_variables l W).length : ℤ) = ⌈(l.length : ℚ) / (W : ℚ)⌉) := by
  refine ⟨chunk_variables_flatten W hW l.length l le_rfl,
    chunk_variables_length_le W l.length l le_rfl,
    chunk_variables_count W hW l.length l le_rfl, ?_⟩
  rw [chunk_variables_count W hW l.length l le_rfl]
  exact nat_ceil_div_formula l.length W hW

/-- Witness for C9 at a concrete input. -/
theorem claim_C9_chunking_roundtrip_witness :
    0 < 2
    ∧ ((chunk_variables ["a", "b", "c"] 2).flatten = ["a", "b", "c"]
      ∧ (∀ c ∈ chunk_variables ["a", "b", "c"] 2, c.length ≤ 2)
      ∧ (chunk_variables ["a", "b", "c"] 2).length = ((["a", "b", "c"] : List String).length + 2 - 1) / 2
      ∧ (((chunk_variables ["a", "b", "c"] 2).length : ℤ)
          = ⌈(((["a", "b", "c"] : List String).length : ℚ)) / ((2 : ℕ) : ℚ)⌉)) :=
  ⟨by decide, claim_C9_chunking_roundtrip ["a", "b", "c"] 2 (by decide)⟩

/-- C2 is refuted as stated: with numerator `None` and denominator `2`, the
helper returns `None` although the denominator is neither `None` nor `0`. -/
theorem claim_C2_counterexample :
    safe_div_percent none (some 2) = none
    ∧ (some (2 : ℚ) : Val) ≠ none ∧ (2 : ℚ) ≠ 0 := by
  refine ⟨by simp [safe_div_percent], by simp, by norm_num⟩

/-- C2 (amended): the helper returns `null` iff the denominator is `null`
or `0` **or the numerator is `null`**; otherwise it returns
`round(numerator/denominator*100, 1)`. -/
theorem claim_C2_safe_division (numerator denominator : Val) :
    (safe_div_percent numerator denominator = none ↔
      denominator = none ∨ denominator = some 0 ∨ numerator = none)
    ∧ (∀ a b : ℚ, numerator = some a → denominator = some b → b ≠ 0 →
        safe_div_percent numerator denominator = some (round1 (a / b * 100))) := by
  by_cases h : denominator = none ∨ denominator = some 0 ∨ numerator = none
  · constructor
    · simp [safe_div_percent, h]
    · intro a b ha hb hb0
      rcases h with h | h | h
      · rw [h] at hb; exact absurd hb (by simp)
      · rw [h] at hb
        have : b = 0 := by injection hb.symm
        exact absurd this hb0
      · rw [h] at ha; exact absurd ha (by simp)
  · constructor
    · simp [safe_div_percent, h]
    · intro a b ha hb hb0
      subst ha; subst hb
      simp [safe_div_percent, h, hb0]

/-- Witness for C2 at a concrete input. -/
theorem claim_C2_safe_division_witness :
    (some (50 : ℚ) : Val) = some 50 ∧ (some (200 : ℚ) : Val) = some 200 ∧ (200 : ℚ) ≠ 0
    ∧ safe_div_percent (some 50) (some 200) = some (round1 ((50 : ℚ) / 200 * 100)) :=
  ⟨rfl, rfl, by norm_num,
    (claim_C2_safe_division (some 50) (some 200)).2 50 200 rfl rfl (by norm_num)⟩

/-- `PopulationTrendPoint` from `app/schemas/population.py`. -/
structure PopulationTrendPoint where
  year : ℤ
  population : ℤ
  is_projection : Bool := false
deriving DecidableEq, Repr

/-- The fixed latest data year (`LATEST_ACS_YEAR = 2023` in both modules). -/
def LATEST_ACS_YEAR : ℤ := 2023

/-- `GrowthMetrics` from `app/schemas/population.py`.  `cagr` is real-valued
because the source computes it with a fractional power; the other numeric
fields stay rational. -/
structure GrowthMetrics where
  period_years : ℤ
  cagr : Option ℝ := none
  yoy_growth : Option ℚ := none
  absolute_change : Option ℤ := none

/-- Placeholder point; never observable (the guards keep indexing in range). -/
def dummyPoint : PopulationTrendPoint := { year := 0, population := 0 }

/-- `DataProcessor._calculate_growth_metrics` (`data_processor.py` lines
48-65; the inline copy in `CensusService._format_response_data`, lines
577-589, is identical).  `trend[-1]` and `trend[-2]` are read off the
reversed list; the `len(trend) < 2` early return is the fallback branch. -/
noncomputable def calculate_growth_metrics (trend : List PopulationTrendPoint) : GrowthMetrics :=
  match trend.reverse with
  | lastP :: prevP :: _ =>
    let firstP := trend.headD dummyPoint
    let endPop := lastP.population
    let startPop := firstP.population
    let periods := lastP.year - firstP.year
    { period_years := 5
      cagr :=
        if 0 < startPop ∧ 0 < periods then
          some (round2r ((((endPop : ℝ) / (startPop : ℝ)) ^ ((1 : ℝ) / (periods : ℝ)) - 1) * 100))
        else none
      yoy_growth :=
        if 0 < prevP.population then
          some (round2q (((endPop : ℚ) - (prevP.population : ℚ)) / (prevP.population : ℚ) * 100))
        else none
      absolute_change := some (endPop - startPop) }
  | _ => { period_years := 5 }

/-- The county growth-factor list of `project_tract_population`:
`county_trend[i].population / county_trend[i-1].population` over consecutive
pairs whose prior population is positive. -/
def county_growth_rates (county_trend : List PopulationTrendPoint) : List ℚ :=
  (county_trend.zip county_trend.tail).filterMap fun pq =>
    if 0 < pq.1.population then some ((pq.2.population : ℚ) / (pq.1.population : ℚ)) else none

/-- `np.mean` on a rational list (only ever applied to nonempty lists). -/
def listMean (l : List ℚ) : ℚ := l.sum / (l.length : ℚ)

/-- The projection loop of `project_tract_population`: each year does
`current_pop *= factor` and appends `int(round(current_pop))`. -/
def projectLoop (factor : ℚ) (pop : ℚ) : List ℤ → List PopulationTrendPoint
  | [] => []
  | y :: ys =>
    { year := y, population := round (pop * factor), is_projection := true }
      :: projectLoop factor (pop * factor) ys

/-- `DataProcessor.project_tract_population` (`data_processor.py` lines
18-46; `CensusService._project_tract_population`, `census_service.py`
lines 294-329, is the same algorithm). -/
def project_tract_population (latest_tract_data : Option VariableMap)
    (county_trend : List PopulationTrendPoint) : List PopulationTrendPoint :=
  match latest_tract_data with
  | none => []
  | some m =>
    if m.isEmpty ∨ ¬truthyVal (pyGet m "B01003_001E") ∨ county_trend.length < 2 then []
    else
      let base : ℚ := (pyGet m "B01003_001E").getD 0
      let rates := county_growth_rates county_trend
      if rates.isEmpty then []
      else
        projectLoop (listMean rates) base
          [LATEST_ACS_YEAR + 1, LATEST_ACS_YEAR + 2, LATEST_ACS_YEAR + 3]

/-- C3 is refuted as stated: the code rounds YoY growth to 2 decimals, while
the claim gives the unrounded formula.  For trend `[(2019,3),(2020,7)]` the
code yields `133.33`, but `((7-3)/3)*100 = 400/3 ≠ 133.33`. -/
theorem claim_C3_counterexample :
    (calculate_growth_metrics [⟨2019, 3, false⟩, ⟨2020, 7, false⟩]).yoy_growth
      = some (13333 / 100)
    ∧ (13333 / 100 : ℚ) ≠ ((7 - 3 : ℚ) / 3) * 100 := by
  constructor
  · have h1 : (calculate_growth_metrics [⟨2019, 3, false⟩, ⟨2020, 7, false⟩]).yoy_growth
        = some (round2q (((7 : ℚ) - 3) / 3 * 100)) := by
      simp [calculate_growth_metrics]
    rw [h1]
    have h2 : ((7 : ℚ) - 3) / 3 * 100 = 400 / 3 := by norm_num
    rw [h2]
    unfold round2q
    have h3 : (400 : ℚ) / 3 * 100 = 40000 / 3 := by norm_num
    rw [h3, round_eq]
    have h4 : ⌊(40000 : ℚ) / 3 + 1 / 2⌋ = 13333 := by
      rw [Int.floor_eq_iff]
      constructor <;> norm_num
    rw [h4]
    norm_num
  · intro h
    norm_num at h

/-- C3 (amended): for a trend with at least 2 points,
`CAGR = round(((last/first)^(1/years_span) - 1) * 100, 2)` exactly when the
first population and the year span are positive (otherwise `null`);
`YoY = round(((last - second_last)/second_last) * 100, 2)` exactly when the
second-to-last population is positive (otherwise `null`); and
`absolute_change = last - first`.  With fewer than 2 points every growth
field is `null`.  `period_years` is the fixed constant 5 in all cases. -/
theorem claim_C3_growth_metrics (trend : List PopulationTrendPoint) :
    (calculate_growth_metrics trend).period_years = 5
    ∧ (trend.length < 2 →
        (calculate_growth_metrics trend).cagr = none
        ∧ (calculate_growth_metrics trend).yoy_growth = none
        ∧ (calculate_growth_metrics trend).absolute_change = none)
    ∧ (2 ≤ trend.length →
        ∃ lastP firstP prevP : PopulationTrendPoint,
          trend.getLast? = some lastP ∧ trend.head? = some firstP
          ∧ trend.get? (trend.length - 2) = some prevP
          ∧ (calculate_growth_metrics trend).absolute_change
              = some (lastP.population - firstP.population)
          ∧ (0 < firstP.population ∧ 0 < lastP.year - firstP.year →
              (calculate_growth_metrics trend).cagr
                = some (round2r ((((lastP.population : ℝ) / (firstP.population : ℝ))
                    ^ ((1 : ℝ) / ((lastP.year - firstP.year : ℤ) : ℝ)) - 1) * 100)))
          ∧ (¬(0 < firstP.population ∧ 0 < lastP.year - firstP.year) →
              (calculate_growth_metrics trend).cagr = none)
          ∧ (0 < prevP.population →
              (calculate_growth_metrics trend).yoy_growth
                = some (round2q (((lastP.population : ℚ) - (prevP.population : ℚ))
                    / (prevP.population : ℚ) * 100)))
          ∧ (¬0 < prevP.population →
              (calculate_growth_metrics trend).yoy_growth = none)) := by
  rcases hrev : trend.reverse with _ | ⟨lastP, rest1⟩
  · have ht : trend = [] := by
      have := congrArg List.reverse hrev
      simpa using this
    subst ht
    exact ⟨rfl, fun _ => ⟨rfl, rfl, rfl⟩, fun h2 => by simp at h2⟩
  · rcases rest1 with _ | ⟨prevP, rest⟩
    · have ht : trend = [lastP] := by
        have := congrArg List.reverse hrev
        simpa using this
      subst ht
      exact ⟨rfl, fun _ => ⟨rfl, rfl, rfl⟩, fun h2 => by simp at h2⟩
    · -- at least two points
      have hlen : trend.length = rest.length + 2 := by
        have := List.length_reverse trend
        rw [hrev] at this
        simpa using this.symm
      have hne : trend ≠ [] := by
        intro h
        rw [h] at hrev
        simp at hrev
      obtain ⟨a, t, hat⟩ := List.exists_cons_of_ne_nil hne
      have hheadD : trend.headD dummyPoint = a := by rw [hat]; rfl
      have hhead : trend.head? = some a := by rw [hat]; rfl
      have hlast : trend.getLast? = some lastP := by
        rw [List.getLast?_eq_head?_reverse, hrev]
        rfl
      have hprev : trend.get? (trend.length - 2) = some prevP := by
        have h1 : (1 : ℕ) < trend.length := by omega
        have h2 := List.get?_reverse (l := trend) (i := 1) h1
        rw [hrev] at h2
        have h3 : trend.length - 1 - 1 = trend.length - 2 := by omega
        rw [h3] at h2
        exact h2.symm
      have hg : calculate_growth_metrics trend =
          { period_years := 5
            cagr :=
              if 0 < a.population ∧ 0 < lastP.year - a.year then
                some (round2r ((((lastP.population : ℝ) / (a.population : ℝ))
                  ^ ((1 : ℝ) / ((lastP.year - a.year : ℤ) : ℝ)) - 1) * 100))
              else none
            yoy_growth :=
              if 0 < prevP.population then
                some (round2q (((lastP.population : ℚ) - (prevP.population : ℚ))
                  / (prevP.population : ℚ) * 100))
              else none
            absolute_change := some (lastP.population - a.population) } := by
        simp only [calculate_growth_metrics, hrev, hheadD]
      refine ⟨by rw [hg], fun hlt => by omega, fun _ => ⟨lastP, a, prevP, hlast, hhead, hprev,
        by rw [hg], fun hcond => by rw [hg]; simp only [if_pos hcond],
        fun hcond => by rw [hg]; simp only [if_neg hcond],
        fun hcond => by rw [hg]; simp only [if_pos hcond],
        fun hcond => by rw [hg]; simp only [if_neg hcond]⟩⟩

/-- Witness for C3 at a concrete single-point trend. -/
theorem claim_C3_growth_metrics_witness :
    ([⟨2019, 1000, false⟩] : List PopulationTrendPoint).length < 2
    ∧ ((calculate_growth_metrics [⟨2019, 1000, false⟩]).cagr = none
      ∧ (calculate_growth_metrics [⟨2019, 1000, false⟩]).yoy_growth = none
      ∧ (calculate_growth_metrics [⟨2019, 1000, false⟩]).absolute_change = none) :=
  ⟨by decide, (claim_C3_growth_metrics [⟨2019, 1000, false⟩]).2.1 (by decide)⟩

-- The growth-metrics scenario of claim C7 (trend `[(2019,1000),(2023,1100)]`).

theorem quarter_root_bounds :
    (102405 / 100000 : ℝ) ≤ (11 / 10 : ℝ) ^ ((1 : ℝ) / 4)
    ∧ (11 / 10 : ℝ) ^ ((1 : ℝ) / 4) < 102415 / 100000 := by
  have hbase : (0 : ℝ) ≤ 11 / 10 := by norm_num
  have hc4 : ((11 / 10 : ℝ) ^ ((1 : ℝ) / 4)) ^ (4 : ℕ) = 11 / 10 := by
    rw [← Real.rpow_natCast ((11 / 10 : ℝ) ^ ((1 : ℝ) / 4)) 4, ← Real.rpow_mul hbase]
    norm_num
  have hcnn : (0 : ℝ) ≤ (11 / 10 : ℝ) ^ ((1 : ℝ) / 4) := Real.rpow_nonneg hbase _
  constructor
  · apply le_of_pow_le_pow_left (by norm_num : (4 : ℕ) ≠ 0) hcnn
    rw [hc4]
    norm_num
  · by_contra hle
    push_neg at hle
    have h2 : (102415 / 100000 : ℝ) ^ (4 : ℕ) ≤ ((11 / 10 : ℝ) ^ ((1 : ℝ) / 4)) ^ (4 : ℕ) :=
      pow_le_pow_left (by norm_num) hle 4
    rw [hc4] at h2
    norm_num at h2

theorem cagr_scenario_rounding :
    round2r ((((11 / 10 : ℝ)) ^ ((1 : ℝ) / 4) - 1) * 100) = 241 / 100 := by
  have hb := quarter_root_bounds
  unfold round2r
  have h1 : round (((11 / 10 : ℝ) ^ ((1 : ℝ) / 4) - 1) * 100 * 100) = 241 := by
    rw [round_eq, Int.floor_eq_iff]
    constructor
    · push_cast
      nlinarith [hb.1]
    · push_cast
      nlinarith [hb.2]
  rw [h1]
  norm_num

/-- The CAGR the code computes for trend `[(2019,1000),(2023,1100)]` is
exactly `2.41`. -/
theorem cagr_scenario_eval :
    (calculate_growth_metrics [⟨2019, 1000, false⟩, ⟨2023, 1100, false⟩]).cagr
      = some (241 / 100 : ℝ) := by
  have h1 : (calculate_growth_metrics [⟨2019, 1000, false⟩, ⟨2023, 1100, false⟩]).cagr
      = some (round2r ((((11 / 10 : ℝ)) ^ ((1 : ℝ) / 4) - 1) * 100)) := by
    simp [calculate_growth_metrics]
    norm_num
  rw [h1, cagr_scenario_rounding]

/-- C7 is refuted as stated: for trend `[(2019,1000),(2023,1100)]` the code's
CAGR, `round(((1100/1000)^(1/4) - 1) * 100, 2)`, equals `2.41`, not
(approximately) `2.37`. -/
theorem claim_C7_counterexample :
    (calculate_growth_metrics [⟨2019, 1000, false⟩, ⟨2023, 1100, false⟩]).cagr
      = some (241 / 100 : ℝ)
    ∧ (241 / 100 : ℝ) ≠ 237 / 100 :=
  ⟨cagr_scenario_eval, by norm_num⟩

/-- C7 (amended): for trend `[(2019,1000),(2023,1100)]` the absolute change
is `100` and the CAGR, `((1100/1000)^(1/4) - 1) * 100` rounded to 2
decimals, is `2.41`; with only one point every growth field except the
fixed `period_years = 5` is `null`. -/
theorem claim_C7_growth_scenario :
    (calculate_growth_metrics [⟨2019, 1000, false⟩, ⟨2023, 1100, false⟩]).absolute_change
      = some 100
    ∧ (calculate_growth_metrics [⟨2019, 1000, false⟩, ⟨2023, 1100, false⟩]).cagr
      = some (241 / 100 : ℝ)
    ∧ (calculate_growth_metrics [⟨2019, 1000, false⟩, ⟨2023, 1100, false⟩]).period_years = 5
    ∧ (calculate_growth_metrics [⟨2019, 1000, false⟩]).cagr = none
    ∧ (calculate_growth_metrics [⟨2019, 1000, false⟩]).yoy_growth = none
    ∧ (calculate_growth_metrics [⟨2019, 1000, false⟩]).absolute_change = none
    ∧ (calculate_growth_metrics [⟨2019, 1000, false⟩]).period_years = 5 := by
  refine ⟨?_, cagr_scenario_eval, ?_, ?_, ?_, ?_, ?_⟩ <;>
    simp [calculate_growth_metrics]

/-- Unfolding of the projection when all guards pass: exactly three points,
years 2024-2026, populations compounded once per year before rounding. -/
theorem project_tract_population_run (m : VariableMap)
    (county_trend : List PopulationTrendPoint)
    (ht : truthyVal (pyGet m "B01003_001E") = true)
    (h2 : 2 ≤ county_trend.length)
    (hr : county_growth_rates county_trend ≠ []) :
    project_tract_population (some m) county_trend =
      [⟨LATEST_ACS_YEAR + 1,
          round ((pyGet m "B01003_001E").getD 0
            * listMean (county_growth_rates county_trend)), true⟩,
       ⟨LATEST_ACS_YEAR + 2,
          round ((pyGet m "B01003_001E").getD 0
            * listMean (county_growth_rates county_trend)
            * listMean (county_growth_rates county_trend)), true⟩,
       ⟨LATEST_ACS_YEAR + 3,
          round ((pyGet m "B01003_001E").getD 0
            * listMean (county_growth_rates county_trend)
            * listMean (county_growth_rates county_trend)
            * listMean (county_growth_rates county_trend)), true⟩] := by
  have hm : m.isEmpty = false := by
    cases m with
    | nil => simp [pyGet, truthyVal] at ht
    | cons a l => rfl
  have hcond : ¬(m.isEmpty = true ∨ ¬truthyVal (pyGet m "B01003_001E") = true
      ∨ county_trend.length < 2) := by
    push_neg
    exact ⟨by simp [hm], by simp [ht], by omega⟩
  simp only [project_tract_population]
  rw [if_neg hcond, if_neg (by simpa using hr)]
  rfl

/-- C4: the projection uses the arithmetic mean of the county growth factors
over consecutive pairs with positive prior population, compounds it forward
for exactly 3 future years (2024-2026) with every point flagged
`is_projection = true`; with fewer than 2 county points or no usable growth
factor it returns the empty list (total, never raises).  The concrete
scenario gives factor `1.02` and populations `5100`, `5202`, `5306`. -/
theorem claim_C4_projection (latest : Option VariableMap)
    (county_trend : List PopulationTrendPoint) :
    (county_trend.length < 2 → project_tract_population latest county_trend = [])
    ∧ (county_growth_rates county_trend = [] →
        project_tract_population latest county_trend = [])
    ∧ (∀ m : VariableMap, latest = some m →
        truthyVal (pyGet m "B01003_001E") = true →
        2 ≤ county_trend.length → county_growth_rates county_trend ≠ [] →
        project_tract_population latest county_trend =
          [⟨LATEST_ACS_YEAR + 1,
              round ((pyGet m "B01003_001E").getD 0
                * listMean (county_growth_rates county_trend)), true⟩,
           ⟨LATEST_ACS_YEAR + 2,
              round ((pyGet m "B01003_001E").getD 0
                * listMean (county_growth_rates county_trend)
                * listMean (county_growth_rates county_trend)), true⟩,
           ⟨LATEST_ACS_YEAR + 3,
              round ((pyGet m "B01003_001E").getD 0
                * listMean (county_growth_rates county_trend)
                * listMean (county_growth_rates county_trend)
                * listMean (county_growth_rates county_trend)), true⟩])
    ∧ listMean (county_growth_rates
        [⟨2019, 100000, false⟩, ⟨2020, 102000, false⟩, ⟨2021, 104040, false⟩]) = 51 / 50
    ∧ project_tract_population (some [("B01003_001E", some 5000)])
        [⟨2019, 100000, false⟩, ⟨2020, 102000, false⟩, ⟨2021, 104040, false⟩]
      = [⟨2024, 5100, true⟩, ⟨2025, 5202, true⟩, ⟨2026, 5306, true⟩] := by
  have hrates : county_growth_rates
      [⟨2019, 100000, false⟩, ⟨2020, 102000, false⟩, ⟨2021, 104040, false⟩]
      = [51 / 50, 51 / 50] := by
    norm_num [county_growth_rates, List.filterMap_cons]
  have hmean : listMean [(51 : ℚ) / 50, 51 / 50] = 51 / 50 := by norm_num [listMean]
  refine ⟨?_, ?_, ?_, by rw [hrates, hmean], ?_⟩
  · intro hlt
    cases latest with
    | none => rfl
    | some m =>
      simp only [project_tract_population]
      rw [if_pos (Or.inr (Or.inr hlt))]
  · intro hempty
    cases latest with
    | none => rfl
    | some m =>
      simp only [project_tract_population]
      by_cases hc : m.isEmpty = true ∨ ¬truthyVal (pyGet m "B01003_001E") = true
          ∨ county_trend.length < 2
      · rw [if_pos hc]
      · rw [if_neg hc, if_pos (by simp [hempty])]
  · intro m hm ht h2 hr
    subst hm
    exact project_tract_population_run m county_trend ht h2 hr
  · rw [project_tract_population_run _ _ (by rfl) (by decide)
      (by rw [hrates]; simp)]
    rw [hrates, hmean]
    have hbase : (pyGet [("B01003_001E", some 5000)] "B01003_001E").getD 0 = 5000 := rfl
    rw [hbase]
    have e1 : (5000 : ℚ) * (51 / 50) = 5100 := by norm_num
    have e2 : (5000 : ℚ) * (51 / 50) * (51 / 50) = 5202 := by norm_num
    have e3 : (5000 : ℚ) * (51 / 50) * (51 / 50) * (51 / 50) = 530604 / 100 := by norm_num
    rw [e3, e2, e1]
    have r1 : round (5100 : ℚ) = 5100 := by norm_num
    have r2 : round (5202 : ℚ) = 5202 := by norm_num
    have r3 : round ((530604 : ℚ) / 100) = 5306 := by
      rw [round_eq, Int.floor_eq_iff]
      constructor <;> norm_num
    rw [r1, r2, r3]
    norm_num [LATEST_ACS_YEAR]

/-- Witness for C4: the empty-projection branch at a concrete short trend. -/
theorem claim_C4_projection_witness :
    ([⟨2021, 104040, false⟩] : List PopulationTrendPoint).length < 2
    ∧ project_tract_population (some [("B01003_001E", some 5000)])
        [⟨2021, 104040, false⟩] = [] :=
  ⟨by decide,
    (claim_C4_projection (some [("B01003_001E", some 5000)]) [⟨2021, 104040, false⟩]).1
      (by decide)⟩

/-- One chunk task's settled outcome under
`asyncio.gather(..., return_exceptions=True)`: a captured exception, or the
value `_fetch_acs_data` returned (which is `None` whenever the fetch failed,
because `_fetch_acs_data` catches every exception itself,
`census_service.py` lines 426-431). -/
inductive ChunkOutcome where
  | exception
  | value (v : Option VariableMap)
deriving DecidableEq

/-- Python `dict.update`: bindings of the second map shadow bindings of the
first (lookup in a `VariableMap` is first-match). -/
def dictUpdate (m1 m2 : VariableMap) : VariableMap := m2 ++ m1

/-- Python `k in d` on a variable map. -/
def containsKey (m : VariableMap) (k : String) : Bool := m.any (fun p => p.1 == k)

/-- The merge loop of `CensusService._fetch_large_acs_dataset`
(`census_service.py` lines 276-292): an exception outcome returns `None`
immediately; a falsy chunk result (`None` or an empty dict) is merely
skipped; at the end the merge is `None` when it is empty or has no `NAME`
key. -/
def mergeChunkResults : List ChunkOutcome → VariableMap → Option VariableMap
  | [], merged =>
    if merged.isEmpty ∨ ¬containsKey merged "NAME" then none else some merged
  | ChunkOutcome.exception :: _, _ => none
  | ChunkOutcome.value none :: rest, merged => mergeChunkResults rest merged
  | ChunkOutcome.value (some m) :: rest, merged =>
    if m.isEmpty then mergeChunkResults rest merged
    else mergeChunkResults rest (dictUpdate merged m)

/-- `CensusService._fetch_large_acs_dataset` after its chunk tasks settled. -/
def fetch_large_acs_merge (results : List ChunkOutcome) : Option VariableMap :=
  mergeChunkResults results []

/-- C5: evaluation at the failing input.  When the second chunk's fetch
fails, `_fetch_acs_data` returns `None` (not an exception), the merge loop
skips it, and the partially merged map of the first chunk is returned —
contradicting the code's own comment "Fail if any part fails" and the spec.
Only an exception outcome (which `_fetch_acs_data` never produces) would
discard the merge, as the second conjunct shows. -/
theorem claim_C5_partial_merge_returned :
    fetch_large_acs_merge
      [ChunkOutcome.value (some [("NAME", none), ("B01003_001E", some 10)]),
       ChunkOutcome.value none]
      = some [("NAME", none), ("B01003_001E", some 10)]
    ∧ fetch_large_acs_merge
      [ChunkOutcome.value (some [("NAME", none), ("B01003_001E", some 10)]),
       ChunkOutcome.exception]
      = none := by
  constructor <;> rfl

/-- `PopulationDensity` from `app/schemas/population.py`:
`people_per_sq_mile` is a **non-optional** float, `change_over_period` is
optional. -/
structure PopulationDensity where
  people_per_sq_mile : ℚ
  change_over_period : Option ℚ
deriving DecidableEq

/-- `2589988.11` square meters per square mile. -/
def SQ_METERS_PER_SQ_MILE : ℚ := 258998811 / 100

/-- The density computation of `CensusService._format_response_data`
(`census_service.py` lines 593-606). -/
def compute_population_density (aland : ℤ) (trend : List PopulationTrendPoint)
    (acs_data : VariableMap) : PopulationDensity :=
  let aland_sq_miles : ℚ := if 0 < aland then (aland : ℚ) / SQ_METERS_PER_SQ_MILE else 0
  let latest_actual_pop : ℚ :=
    match trend.getLast? with
    | some p => (p.population : ℚ)
    | none => (pyGet acs_data "B01003_001E").getD 0
  { people_per_sq_mile :=
      if 0 < aland_sq_miles then latest_actual_pop / aland_sq_miles else 0
    change_over_period :=
      if ¬trend.isEmpty = true ∧ 0 < aland_sq_miles ∧ 2 ≤ trend.length then
        some (((trend.getLastD dummyPoint).population : ℚ) / aland_sq_miles
          - ((trend.headD dummyPoint).population : ℚ) / aland_sq_miles)
      else none }

/-- C6 is refuted as stated: with land area `0` the code stores the float
`0` in the non-nullable `people_per_sq_mile` field, not `null` — even when
a perfectly good trend exists. -/
theorem claim_C6_counterexample :
    (compute_population_density 0 [] []).people_per_sq_mile = 0
    ∧ (compute_population_density 0
        [⟨2019, 5000, false⟩, ⟨2023, 6000, false⟩] []).people_per_sq_mile = 0 := by
  constructor <;> rfl

/-- C6 (amended): the ratio fields produced through `safe_div_percent` are
`null` (never a defaulted zero) when the denominator is zero or missing,
and `change_over_period` is `null` when the land area is zero or missing —
but the non-nullable `people_per_sq_mile` is a defaulted `0` in that case. -/
theorem claim_C6_density_zero_not_null (aland : ℤ) (trend : List PopulationTrendPoint)
    (acs_data : VariableMap) (h : aland ≤ 0) :
    (compute_population_density aland trend acs_data).people_per_sq_mile = 0
    ∧ (compute_population_density aland trend acs_data).change_over_period = none
    ∧ (∀ n d : Val, d = none ∨ d = some 0 → safe_div_percent n d = none) := by
  have hA : ¬(0 : ℤ) < aland := by omega
  refine ⟨?_, ?_, ?_⟩
  · simp only [compute_population_density, if_neg hA]
    rw [if_neg (by norm_num)]
  · simp only [compute_population_density, if_neg hA]
    rw [if_neg (by norm_num [not_and_or])]
  · intro n d hd
    rcases hd with hd | hd <;> subst hd <;> simp [safe_div_percent]

/-- Witness for C6 at a concrete input. -/
theorem claim_C6_density_zero_not_null_witness :
    (0 : ℤ) ≤ 0
    ∧ ((compute_population_density 0 [⟨2019, 5000, false⟩] []).people_per_sq_mile = 0
      ∧ (compute_population_density 0 [⟨2019, 5000, false⟩] []).change_over_period = none
      ∧ (∀ n d : Val, d = none ∨ d = some 0 → safe_div_percent n d = none)) :=
  ⟨le_refl 0, claim_C6_density_zero_not_null 0 [⟨2019, 5000, false⟩] [] (le_refl 0)⟩

/-- The `total_pop` selection of the response assemblers
(`data_processor.py` line 75, `census_service.py` lines 573-574):
`(trend + projection)[-1].population if (trend + projection) else
acs_data.get("B01003_001E", 0)`. -/
def assemble_total_population (trend projection : List PopulationTrendPoint)
    (acs_data : VariableMap) : Option ℚ :=
  match (trend ++ projection).getLast? with
  | some p => some (p.population : ℚ)
  | none => pyGetD acs_data "B01003_001E" 0

/-- C10: when the combined trend-plus-projection list is non-empty the
`total_population` field equals the population of its last point — in
particular, when a projection exists it is the projected population of the
final future year, never the latest observed value; only when both lists
are empty does it fall back to `acs_data.get("B01003_001E", 0)`. -/
theorem claim_C10_total_population (trend projection : List PopulationTrendPoint)
    (acs_data : VariableMap) :
    (∀ p : PopulationTrendPoint, (trend ++ projection).getLast? = some p →
        assemble_total_population trend projection acs_data = some (p.population : ℚ))
    ∧ (trend = [] → projection = [] →
        assemble_total_population trend projection acs_data
          = pyGetD acs_data "B01003_001E" 0)
    ∧ (projection ≠ [] → ∃ p : PopulationTrendPoint, projection.getLast? = some p ∧
        assemble_total_population trend projection acs_data = some (p.population : ℚ)) := by
  refine ⟨?_, ?_, ?_⟩
  · intro p hp
    unfold assemble_total_population
    rw [hp]
  · intro h1 h2
    subst h1
    subst h2
    rfl
  · intro hne
    have hsome : projection.getLast?.isSome := List.getLast?_isSome.mpr hne
    obtain ⟨p, hp⟩ := Option.isSome_iff_exists.mp hsome
    refine ⟨p, hp, ?_⟩
    unfold assemble_total_population
    rw [List.getLast?_append, hp]
    rfl

/-- Witness for C10 at a concrete input. -/
theorem claim_C10_total_population_witness :
    ([⟨2026, 5306, true⟩] : List PopulationTrendPoint) ≠ []
    ∧ ∃ p : PopulationTrendPoint,
        ([⟨2026, 5306, true⟩] : List PopulationTrendPoint).getLast? = some p
        ∧ assemble_total_population [⟨2023, 5000, false⟩] [⟨2026, 5306, true⟩]
            [("B01003_001E", some 5000)] = some (p.population : ℚ) :=
  ⟨by decide,
    (claim_C10_total_population [⟨2023, 5000, false⟩] [⟨2026, 5306, true⟩]
      [("B01003_001E", some 5000)]).2.2 (by decide)⟩

/-- The persistent cache, one row per `db.add`: `(address_key, payload)`. -/
abbrev CacheStore (α : Type) := List (String × α)

/-- `select(PopulationCache).where(address_key == key) ... .scalars().first()`. -/
def cacheFirst {α : Type} (store : CacheStore α) (key : String) : Option α :=
  (store.find? (fun p => p.1 == key)).map Prod.snd

/-- The cache gateway of `get_market_data_for_address` (`census_service.py`
lines 65-76 and 169-176): a hit that validates against the current schema
returns the cached payload unchanged; a hit that fails validation falls
through to recomputation; a fresh computation is stored with
`db.add(PopulationCache(...))` — an SQL INSERT that appends a new row and
never deletes or updates an existing row for the key. -/
def get_market_data_cached {α : Type} (store : CacheStore α) (key : String)
    (valid : α → Bool) (fresh : α) : α × CacheStore α :=
  match cacheFirst store key with
  | some payload =>
    if valid payload then (payload, store) else (fresh, store ++ [(key, fresh)])
  | none => (fresh, store ++ [(key, fresh)])

/-- Number of cache rows stored under a key. -/
def countKey {α : Type} (store : CacheStore α) (key : String) : ℕ :=
  (store.filter (fun p => p.1 == key)).length

/-- C8 is refuted as stated: when a cached entry fails schema validation the
fresh computation is appended as a second row for the same key; the stale
row is not overwritten, so the key now has two entries. -/
theorem claim_C8_counterexample :
    (get_market_data_cached [("addr", 0)] "addr" (fun p => p == 1) (1 : ℕ)).2
      = [("addr", 0), ("addr", 1)]
    ∧ countKey (get_market_data_cached [("addr", 0)] "addr"
        (fun p => p == 1) (1 : ℕ)).2 "addr" = 2 := by
  constructor <;> rfl

/-- C8 (amended): the store step always INSERTs (appends) the fresh record;
on a plain miss (no row for the key) the key ends with exactly one row
holding the fresh record, and a validating hit leaves the store unchanged —
but a hit that fails validation appends a second row for the key instead of
overwriting the stale one. -/
theorem claim_C8_cache_store {α : Type} (store : CacheStore α) (key : String)
    (valid : α → Bool) (fresh : α) :
    (cacheFirst store key = none →
        (get_market_data_cached store key valid fresh).1 = fresh
        ∧ (get_market_data_cached store key valid fresh).2 = store ++ [(key, fresh)]
        ∧ countKey (get_market_data_cached store key valid fresh).2 key
            = countKey store key + 1
        ∧ (countKey store key = 0 →
            countKey (get_market_data_cached store key valid fresh).2 key = 1
            ∧ cacheFirst (get_market_data_cached store key valid fresh).2 key
                = some fresh))
    ∧ (∀ payload, cacheFirst store key = some payload → valid payload = true →
        get_market_data_cached store key valid fresh = (payload, store))
    ∧ (∀ payload, cacheFirst store key = some payload → valid payload = false →
        (get_market_data_cached store key valid fresh).2 = store ++ [(key, fresh)]
        ∧ countKey (get_market_data_cached store key valid fresh).2 key
            = countKey store key + 1) := by
  have hcount : countKey (store ++ [(key, fresh)]) key = countKey store key + 1 := by
    unfold countKey
    rw [List.filter_append, List.length_append]
    simp
  refine ⟨?_, ?_, ?_⟩
  · intro hmiss
    have hrun : get_market_data_cached store key valid fresh
        = (fresh, store ++ [(key, fresh)]) := by
      unfold get_market_data_cached
      rw [hmiss]
    refine ⟨by rw [hrun], by rw [hrun], by rw [hrun]; exact hcount, ?_⟩
    intro hzero
    have hfind : store.find? (fun p => p.1 == key) = none := by
      unfold cacheFirst at hmiss
      exact Option.map_eq_none.mp hmiss
    refine ⟨by rw [hrun]; rw [hcount, hzero], ?_⟩
    rw [hrun]
    unfold cacheFirst
    rw [List.find?_append, hfind]
    simp
  · intro payload hhit hvalid
    unfold get_market_data_cached
    rw [hhit]
    simp [hvalid]
  · intro payload hhit hinvalid
    have hrun : get_market_data_cached store key valid fresh
        = (fresh, store ++ [(key, fresh)]) := by
      unfold get_market_data_cached
      rw [hhit]
      simp [hinvalid]
    exact ⟨by rw [hrun], by rw [hrun]; exact hcount⟩

/-- Witness for C8 at a concrete input. -/
theorem claim_C8_cache_store_witness :
    cacheFirst ([] : CacheStore ℕ) "addr" = none
    ∧ ((get_market_data_cached ([] : CacheStore ℕ) "addr" (fun p => p == 1) 7).1 = 7
      ∧ (get_market_data_cached ([] : CacheStore ℕ) "addr" (fun p => p == 1) 7).2
          = [] ++ [("addr", 7)]
      ∧ countKey (get_market_data_cached ([] : CacheStore ℕ) "addr"
          (fun p => p == 1) 7).2 "addr" = countKey ([] : CacheStore ℕ) "addr" + 1
      ∧ (countKey ([] : CacheStore ℕ) "addr" = 0 →
          countKey (get_market_data_cached ([] : CacheStore ℕ) "addr"
            (fun p => p == 1) 7).2 "addr" = 1
          ∧ cacheFirst (get_market_data_cached ([] : CacheStore ℕ) "addr"
              (fun p => p == 1) 7).2 "addr" = some 7)) :=
  ⟨rfl, (claim_C8_cache_store ([] : CacheStore ℕ) "addr" (fun p => p == 1) 7).1 rfl⟩

/-- `WalkabilityScores` from `app/schemas/population.py`. -/
structure WalkabilityScores where
  walk_score : Option ℤ := none
  walk_score_description : Option String := none
  transit_score : Option ℤ := none
  transit_score_description : Option String := none
deriving DecidableEq

/-- A PEP county-components map (`_fetch_pep_county_components`): after the
string-to-int conversion a value is an int or `None`. -/
abbrev DriversMap := List (String × Option ℤ)

/-- An ACS migration-flows map (`_fetch_migration_flows`): values are always
ints because that fetch coerces `None` to `0`. -/
abbrev FlowsMap := List (String × ℤ)

/-- `MigrationData` from `app/schemas/population.py`: every field required. -/
structure MigrationData where
  net_migration : ℤ
  net_migration_rate : ℚ
  domestic_migration : ℤ
  international_migration : ℤ
  inflows : ℤ
  outflows : ℤ
  gross_migration : ℤ
deriving DecidableEq

/-- `NaturalIncreaseData` from `app/schemas/population.py`. -/
structure NaturalIncreaseData where
  births : ℤ
  deaths : ℤ
  natural_change : ℤ
  natural_increase_rate : ℚ
deriving DecidableEq

/-- `m.get(k, d)` on a drivers map: the default only when the key is absent;
a stored `None` comes back as `none`. -/
def driversGetD (m : DriversMap) (k : String) (d : ℤ) : Option ℤ :=
  match m.find? (fun p => p.1 == k) with
  | none => some d
  | some p => p.2

/-- `m[k]` on a drivers map: outer `none` models a `KeyError`. -/
def driversGet (m : DriversMap) (k : String) : Option (Option ℤ) :=
  (m.find? (fun p => p.1 == k)).map Prod.snd

/-- `m.get(k, d)` on a flows map (values always ints). -/
def flowsGetD (m : FlowsMap) (k : String) (d : ℤ) : ℤ :=
  match m.find? (fun p => p.1 == k) with
  | none => d
  | some p => p.2

/-- Python truthiness of an `Optional[dict]` / `Optional[list]`:
`None` and the empty collection are falsy. -/
def truthyOptMap {β : Type} : Option (List β) → Bool
  | none => false
  | some m => !m.isEmpty

/-- A task outcome as observed after
`asyncio.gather(..., return_exceptions=True)`: a captured exception, or the
value the coroutine returned. -/
inductive TaskOutcome (α : Type) where
  | exception
  | value (v : α)
deriving DecidableEq

/-- The six settled fan-out task results of `get_market_data_for_address`
(`census_service.py` lines 86-96), in dictionary order. -/
structure GatherResults where
  latest_year_tract_data : TaskOutcome (Option VariableMap)
  historical_tract_trend : TaskOutcome (List PopulationTrendPoint)
  county_trend : TaskOutcome (List PopulationTrendPoint)
  county_drivers : TaskOutcome (Option DriversMap)
  migration_flows : TaskOutcome (Option FlowsMap)
  walkability : TaskOutcome (Option WalkabilityScores)
deriving DecidableEq

/-- The migration assembly (`census_service.py` lines 126-146).  The outer
`Option` layer models an uncaught exception: comparing a stored `None`
`POP` with `0` is a `TypeError`, and a `None` in a required int field of
`MigrationData` is a pydantic `ValidationError`. -/
def compute_migration_data (acs_flows : Option FlowsMap)
    (pep_drivers : Option DriversMap) : Option (Option MigrationData) :=
  match acs_flows, pep_drivers with
  | some flows, some pep =>
    if flows.isEmpty ∨ pep.isEmpty then some none
    else
      match driversGetD pep "POP" 0 with
      | none => none
      | some popVal =>
        if 0 < popVal then
          match driversGetD pep "DOMESTICMIG" 0, driversGetD pep "INTERNATIONALMIG" 0 with
          | some dom, some intl =>
            some (some
              { net_migration := flowsGetD flows "MOVEDNET" 0
                net_migration_rate :=
                  round2q ((flowsGetD flows "MOVEDNET" 0 : ℚ) / (popVal : ℚ) * 100)
                inflows := flowsGetD flows "MOVEDIN" 0
                outflows := flowsGetD flows "MOVEDOUT" 0
                gross_migration := flowsGetD flows "MOVEDIN" 0 + flowsGetD flows "MOVEDOUT" 0
                domestic_migration := dom
                international_migration := intl })
          | _, _ => none
        else some none
  | _, _ => some none

/-- The natural-increase assembly (`census_service.py` lines 147-152), with
the same uncaught-exception layer (`KeyError` on a missing `BIRTHS` /
`DEATHS` / `NATURALINC` key, `TypeError` / `ValidationError` on a stored
`None`). -/
def compute_natural_increase (pep_drivers : Option DriversMap) :
    Option (Option NaturalIncreaseData) :=
  match pep_drivers with
  | some pep =>
    if pep.isEmpty then some none
    else
      match driversGetD pep "POP" 0 with
      | none => none
      | some popVal =>
        if 0 < popVal then
          match driversGet pep "BIRTHS", driversGet pep "DEATHS",
              driversGet pep "NATURALINC" with
          | some (some b), some (some d), some (some nc) =>
            some (some
              { births := b, deaths := d, natural_change := nc
                natural_increase_rate := round2q ((nc : ℚ) / (popVal : ℚ) * 1000) })
          | _, _, _ => none
        else some none
  | none => some none

/-- Whether the critical latest-year ACS payload is present and truthy
(`if isinstance(main_acs_data, Exception) or not main_acs_data`). -/
def latestTruthy (g : GatherResults) : Bool :=
  match g.latest_year_tract_data with
  | TaskOutcome.exception => false
  | TaskOutcome.value m => truthyOptMap m

/-- `task_results[name] = None` for a failed non-critical task
(`census_service.py` line 109): an exception outcome is replaced by `None`. -/
def settledValue {α : Type} : TaskOutcome (Option α) → Option α
  | TaskOutcome.exception => none
  | TaskOutcome.value v => v

/-- A drivers payload is well-typed where the assembly reads it: `POP` is
absent or an int, and when `POP > 0` the `BIRTHS` / `DEATHS` / `NATURALINC`
keys hold ints and `DOMESTICMIG` / `INTERNATIONALMIG` are absent or ints. -/
def wellTypedDrivers (pep : DriversMap) : Bool :=
  pep.isEmpty ||
    (match driversGetD pep "POP" 0 with
     | none => false
     | some p =>
       if 0 < p then
         (match driversGet pep "BIRTHS" with | some (some _) => true | _ => false)
         && (match driversGet pep "DEATHS" with | some (some _) => true | _ => false)
         && (match driversGet pep "NATURALINC" with | some (some _) => true | _ => false)
         && (driversGetD pep "DOMESTICMIG" 0).isSome
         && (driversGetD pep "INTERNATIONALMIG" 0).isSome
       else true)

/-- Well-typedness of the drivers payload, when that optional task succeeded. -/
def gDriversWellTyped (g : GatherResults) : Bool :=
  match g.county_drivers with
  | TaskOutcome.value (some pep) => wellTypedDrivers pep
  | _ => true

/-- Which mandatory task `t` failed: the critical latest-year payload is an
exception or falsy, or a trend task raised. -/
def mandatoryFailed (g : GatherResults) (t : String) : Prop :=
  (t = "latest_year_tract_data" ∧ latestTruthy g = false)
  ∨ (t = "historical_tract_trend" ∧ g.historical_tract_trend = TaskOutcome.exception)
  ∨ (t = "county_trend" ∧ g.county_trend = TaskOutcome.exception)

theorem compute_migration_data_flows_none (pd : Option DriversMap) :
    compute_migration_data none pd = some none := by
  cases pd <;> rfl

theorem compute_migration_data_pep_none (fl : Option FlowsMap) :
    compute_migration_data fl none = some none := by
  cases fl <;> rfl

theorem compute_natural_increase_none :
    compute_natural_increase none = some none := rfl

/-- With a well-typed drivers payload the migration assembly never crashes. -/
theorem compute_migration_data_isSome (acs_flows : Option FlowsMap)
    (pep_drivers : Option DriversMap)
    (hw : ∀ pep : DriversMap, pep_drivers = some pep → wellTypedDrivers pep = true) :
    (compute_migration_data acs_flows pep_drivers).isSome = true := by
  cases acs_flows with
  | none => rw [compute_migration_data_flows_none]; rfl
  | some f =>
    cases pep_drivers with
    | none => rw [compute_migration_data_pep_none]; rfl
    | some pep =>
      by_cases he : f.isEmpty = true ∨ pep.isEmpty = true
      · rcases he with he | he <;> simp [compute_migration_data, he]
      · have hfe : f.isEmpty = false := by
          cases hb : f.isEmpty
          · rfl
          · exact absurd (Or.inl hb) he
        have hpe : pep.isEmpty = false := by
          cases hb : pep.isEmpty
          · rfl
          · exact absurd (Or.inr hb) he
        have hwt := hw pep rfl
        simp only [wellTypedDrivers, hpe, Bool.false_or] at hwt
        rcases hmatch : driversGetD pep "POP" 0 with _ | p
        · rw [hmatch] at hwt
          simp at hwt
        · rw [hmatch] at hwt
          simp only [] at hwt
          by_cases hp : 0 < p
          · rw [if_pos hp] at hwt
            simp only [Bool.and_eq_true] at hwt
            obtain ⟨dom, hdom⟩ := Option.isSome_iff_exists.mp hwt.1.2
            obtain ⟨intl, hintl⟩ := Option.isSome_iff_exists.mp hwt.2
            simp [compute_migration_data, hfe, hpe, hmatch, hp, hdom, hintl]
          · simp [compute_migration_data, hfe, hpe, hmatch, hp]

/-- With a well-typed drivers payload the natural-increase assembly never
crashes. -/
theorem compute_natural_increase_isSome (pep_drivers : Option DriversMap)
    (hw : ∀ pep : DriversMap, pep_drivers = some pep → wellTypedDrivers pep = true) :
    (compute_natural_increase pep_drivers).isSome = true := by
  cases pep_drivers with
  | none => rfl
  | some pep =>
    by_cases hpe : pep.isEmpty = true
    · simp [compute_natural_increase, hpe]
    · have hpe2 : pep.isEmpty = false := by
        cases hb : pep.isEmpty
        · rfl
        · exact absurd hb hpe
      have hwt := hw pep rfl
      simp only [wellTypedDrivers, hpe2, Bool.false_or] at hwt
      rcases hmatch : driversGetD pep "POP" 0 with _ | p
      · rw [hmatch] at hwt
        simp at hwt
      · rw [hmatch] at hwt
        simp only [] at hwt
        by_cases hp : 0 < p
        · rw [if_pos hp] at hwt
          simp only [Bool.and_eq_true] at hwt
          have hb := hwt.1.1.1.1
          have hd := hwt.1.1.1.2
          have hnc := hwt.1.1.2
          rcases hbm : driversGet pep "BIRTHS" with _ | bv
          · rw [hbm] at hb; simp at hb
          · rcases bv with _ | b
            · rw [hbm] at hb; simp at hb
            · rcases hdm : driversGet pep "DEATHS" with _ | dv
              · rw [hdm] at hd; simp at hd
              · rcases dv with _ | d
                · rw [hdm] at hd; simp at hd
                · rcases hncm : driversGet pep "NATURALINC" with _ | nv
                  · rw [hncm] at hnc; simp at hnc
                  · rcases nv with _ | nc
                    · rw [hncm] at hnc; simp at hnc
                    · simp [compute_natural_increase, hpe2, hmatch, hp, hbm, hdm, hncm]
        · simp [compute_natural_increase, hpe2, hmatch, hp]


/-- `Coordinates` from `app/schemas/population.py`. -/
structure Coordinates where
  lat : ℚ
  lon : ℚ
deriving DecidableEq

/-- `Demographics` from `app/schemas/population.py` (the fields
`CensusService._format_response_data` fills): `median_household_income` is
`Optional[int]`, the others optional floats. -/
structure Demographics where
  median_household_income : Option ℤ := none
  percent_bachelors_or_higher : Option ℚ := none
  avg_household_size : Option ℚ := none
deriving DecidableEq

/-- `HousingMetrics` from `app/schemas/population.py`. -/
structure HousingMetrics where
  percent_renter_occupied : Option ℚ := none
  median_home_value : Option ℤ := none
  median_gross_rent : Option ℤ := none
deriving DecidableEq

/-- `AgeDistribution` from `app/schemas/population.py`: required ints. -/
structure AgeDistribution where
  under_18 : ℤ
  age_18_to_34 : ℤ
  age_35_to_64 : ℤ
  over_65 : ℤ
deriving DecidableEq

/-- `SexDistribution` from `app/schemas/population.py`. -/
structure SexDistribution where
  male : ℤ
  female : ℤ
  percent_male : Option ℚ := none
  percent_female : Option ℚ := none
deriving DecidableEq

/-- `BenchmarkData` from `app/schemas/population.py`. -/
structure BenchmarkData where
  county_trend : List PopulationTrendPoint
deriving DecidableEq

/-- `PopulationTrend` from `app/schemas/population.py`. -/
structure PopulationTrend where
  trend : List PopulationTrendPoint
  projection : List PopulationTrendPoint
  benchmark : Option BenchmarkData := none
deriving DecidableEq

/-- `PopulationDataResponse` from `app/schemas/population.py`, restricted to
the fields `_format_response_data` fills.  `geography_name` and `median_age`
keep the raw fetched cell (the name's string content is abstracted; only its
`None`-vs-present status matters to validation). -/
structure PopulationDataResponse where
  search_address : String
  data_year : ℤ
  geography_name : Val
  geography_level : String
  coordinates : Coordinates
  tract_area_sq_meters : ℤ
  total_population : ℤ
  median_age : Val
  growth : GrowthMetrics
  migration : Option MigrationData
  natural_increase : Option NaturalIncreaseData
  population_density : PopulationDensity
  age_distribution : AgeDistribution
  sex_distribution : SexDistribution
  demographics : Demographics
  housing : HousingMetrics
  walkability : Option WalkabilityScores
  population_trends : PopulationTrend

/-- `acs_data.get(k, 0) or 0`: absent or `None` or `0` all give `0`. -/
def getOr0 (m : VariableMap) (k : String) : ℚ := (pyGetD m k 0).getD 0

/-- `sum(acs_data.get(k, 0) or 0 for k in codes)`. -/
def bucketSum (m : VariableMap) (codes : List String) : ℚ :=
  (codes.map (getOr0 m)).sum

/-- Validation of a pydantic `Optional[int]` field: `None` passes through;
a number passes only if it has no fractional part (pydantic v2 rejects a
non-integral float for an `int` field); the outer `none` is the raised
`ValidationError`. -/
def pyOptInt (v : Val) : Option (Option ℤ) :=
  match v with
  | none => some none
  | some q => if q.den = 1 then some (some q.num) else none

/-- Validation of a pydantic required-`int` field fed a number: `none` is
the `ValidationError` on a number with a fractional part. -/
def pyReqInt (q : ℚ) : Option ℤ :=
  if q.den = 1 then some q.num else none

/-- `["B15003_022E", ..., "B15003_025E"]` (bachelors and higher). -/
def eduCodes : List String :=
  ["B15003_022E", "B15003_023E", "B15003_024E", "B15003_025E"]

/-- The under-18 male and female age-group codes of line 630. -/
def under18Codes : List String :=
  ["B01001_003E", "B01001_004E", "B01001_005E", "B01001_006E",
   "B01001_027E", "B01001_028E", "B01001_029E", "B01001_030E"]

/-- The 18-to-34 male and female age-group codes of line 631. -/
def age18to34Codes : List String :=
  ["B01001_007E", "B01001_008E", "B01001_009E", "B01001_010E",
   "B01001_011E", "B01001_012E", "B01001_031E", "B01001_032E",
   "B01001_033E", "B01001_034E", "B01001_035E", "B01001_036E"]

/-- The 35-to-64 male and female age-group codes of line 632. -/
def age35to64Codes : List String :=
  ["B01001_013E", "B01001_014E", "B01001_015E", "B01001_016E",
   "B01001_017E", "B01001_018E", "B01001_019E", "B01001_037E",
   "B01001_038E", "B01001_039E", "B01001_040E", "B01001_041E",
   "B01001_042E", "B01001_043E"]

/-- The 65-and-over male and female age-group codes of line 633. -/
def over65Codes : List String :=
  ["B01001_020E", "B01001_021E", "B01001_022E", "B01001_023E",
   "B01001_024E", "B01001_025E", "B01001_044E", "B01001_045E",
   "B01001_046E", "B01001_047E", "B01001_048E", "B01001_049E"]

/-- Stable insertion preserving earlier equal-year points first. -/
def insertByYear (p : PopulationTrendPoint) :
    List PopulationTrendPoint → List PopulationTrendPoint
  | [] => [p]
  | q :: rest =>
    if q.year ≤ p.year then q :: insertByYear p rest else p :: q :: rest

/-- `list.sort(key=lambda p: p.year)`: stable ascending insertion sort. -/
def sortByYear (l : List PopulationTrendPoint) : List PopulationTrendPoint :=
  l.foldl (fun acc p => insertByYear p acc) []

/-- The tract-trend reconstruction of `get_market_data_for_address`
(`census_service.py` lines 112-119): when the critical payload has a
non-`None` `B01003_001E`, append `PopulationTrendPoint(year=2023,
population=latest_population)` and re-sort by year.  `none` models the
pydantic `ValidationError` raised at line 116 when that population is a
number with a fractional part (producible by `_fetch_acs_data` line 418). -/
def reconstruct_tract_trend (m : VariableMap)
    (historical : List PopulationTrendPoint) :
    Option (List PopulationTrendPoint) :=
  match pyGet m "B01003_001E" with
  | none => some historical
  | some q =>
    if q.den = 1 then
      some (sortByYear (historical ++ [{ year := LATEST_ACS_YEAR, population := q.num }]))
    else none

/-- Lines 573-574 as validated by the `total_population: int` field:
`None` (a stored-`None` fallback) or a fractional number raises. -/
def totalPopulationStep (m : VariableMap)
    (trend projection : List PopulationTrendPoint) : Option ℤ :=
  match assemble_total_population trend projection m with
  | none => none
  | some q => pyReqInt q

/-- Lines 620-621: `percent_renter` with its unguarded numerator — when the
occupied-units denominator is a positive number, a stored-`None` renter
count raises a `TypeError` in the division. -/
def percentRenterStep (m : VariableMap) : Option (Option ℚ) :=
  match pyGetD m "B25003_001E" 0 with
  | none => some none
  | some total_occupied =>
    if 0 < total_occupied then
      match pyGetD m "B25003_003E" 0 with
      | none => none
      | some renters => some (some (round1 (renters / total_occupied * 100)))
    else some none

/-- `CensusService._format_response_data` (`census_service.py` lines
556-661) with its uncaught-exception paths explicit: the result is `none`
when a pydantic model construction or an unguarded arithmetic step would
raise — an int field (`total_population`, the age/sex counts, the
`Optional[int]` medians) fed a number with a fractional part, the `str`
field `geography_name` fed a stored `None`, or the renter numerator `None`
divided while the occupied-units denominator is positive.  The
`if not acs_data` 404 of lines 569-571 is also `none`; the pipeline reaches
this function only with a truthy payload. -/
noncomputable def format_response_data (m : VariableMap)
    (trend projection county_trend : List PopulationTrendPoint)
    (walkability : Option WalkabilityScores)
    (migration : Option MigrationData)
    (natural_increase : Option NaturalIncreaseData)
    (address : String) (year : ℤ) (geo_level : String)
    (aland : ℤ) (coordinates : Coordinates) :
    Option PopulationDataResponse :=
  if m.isEmpty then none
  else do
    let total_population ← totalPopulationStep m trend projection
    let growth := calculate_growth_metrics trend
    let population_density := compute_population_density aland trend m
    let percent_bachelors :=
      match pyGetD m "B15003_001E" 0 with
      | none => none
      | some q =>
        if 0 < q then some (round1 (bucketSum m eduCodes / q * 100)) else none
    let median_household_income ← pyOptInt (pyGet m "B19013_001E")
    let demographics : Demographics :=
      { median_household_income := median_household_income
        percent_bachelors_or_higher := percent_bachelors
        avg_household_size := pyGet m "B25010_001E" }
    let percent_renter ← percentRenterStep m
    let median_home_value ← pyOptInt (pyGet m "B25077_001E")
    let median_gross_rent ← pyOptInt (pyGet m "B25064_001E")
    let housing : HousingMetrics :=
      { percent_renter_occupied := percent_renter
        median_home_value := median_home_value
        median_gross_rent := median_gross_rent }
    let under_18 ← pyReqInt (bucketSum m under18Codes)
    let age_18_to_34 ← pyReqInt (bucketSum m age18to34Codes)
    let age_35_to_64 ← pyReqInt (bucketSum m age35to64Codes)
    let over_65 ← pyReqInt (bucketSum m over65Codes)
    let male_total := getOr0 m "B01001_002E"
    let female_total := getOr0 m "B01001_026E"
    let total_sex := male_total + female_total
    let male ← pyReqInt male_total
    let female ← pyReqInt female_total
    let sex_distribution : SexDistribution :=
      { male := male, female := female
        percent_male :=
          if 0 < total_sex then some (round1 (male_total / total_sex * 100)) else none
        percent_female :=
          if 0 < total_sex then some (round1 (female_total / total_sex * 100)) else none }
    let _nameOk ← pyGetD m "NAME" 0
    some
      { search_address := address
        data_year := year
        geography_name := pyGet m "NAME"
        geography_level := geo_level
        coordinates := coordinates
        tract_area_sq_meters := aland
        total_population := total_population
        median_age := pyGet m "B01002_001E"
        growth := growth
        migration := migration
        natural_increase := natural_increase
        population_density := population_density
        age_distribution :=
          { under_18 := under_18, age_18_to_34 := age_18_to_34
            age_35_to_64 := age_35_to_64, over_65 := over_65 }
        sex_distribution := sex_distribution
        demographics := demographics
        housing := housing
        walkability := walkability
        population_trends :=
          { trend := trend, projection := projection
            benchmark := some { county_trend := county_trend } } }

/-- Result of the pipeline after all six tasks settled (`census_service.py`
lines 98-166; the subsequent cache write is modelled by
`get_market_data_cached`): an HTTP 503 naming a mandatory task, an uncaught
exception (`crash`), or the assembled record that is returned. -/
inductive PipelineOutcome where
  | serviceUnavailable (task : String)
  | crash
  | ok (record : PopulationDataResponse)

/-- `get_market_data_for_address` after `asyncio.gather` (`census_service.py`
lines 98-166): the escalation policy of lines 98-109, the tract-trend
reconstruction of lines 112-119, the projection of line 123, the
migration / natural-increase assembly of lines 126-152, and the final
`_format_response_data` call of lines 155-166. -/
noncomputable def settle_and_derive (address : String) (aland : ℤ)
    (coords : Coordinates) (g : GatherResults) : PipelineOutcome :=
  match g.latest_year_tract_data with
  | TaskOutcome.exception => PipelineOutcome.serviceUnavailable "latest_year_tract_data"
  | TaskOutcome.value mOpt =>
    if ¬truthyOptMap mOpt = true then
      PipelineOutcome.serviceUnavailable "latest_year_tract_data"
    else
      match g.historical_tract_trend with
      | TaskOutcome.exception => PipelineOutcome.serviceUnavailable "historical_tract_trend"
      | TaskOutcome.value historical =>
        match g.county_trend with
        | TaskOutcome.exception => PipelineOutcome.serviceUnavailable "county_trend"
        | TaskOutcome.value county_trend =>
          match mOpt with
          | none => PipelineOutcome.serviceUnavailable "latest_year_tract_data"
          | some m =>
            match reconstruct_tract_trend m historical with
            | none => PipelineOutcome.crash
            | some tract_trend =>
              match compute_migration_data (settledValue g.migration_flows)
                  (settledValue g.county_drivers) with
              | none => PipelineOutcome.crash
              | some migration =>
                match compute_natural_increase (settledValue g.county_drivers) with
                | none => PipelineOutcome.crash
                | some natural_increase =>
                  match format_response_data m tract_trend
                      (project_tract_population (some m) county_trend) county_trend
                      (settledValue g.walkability) migration natural_increase
                      address LATEST_ACS_YEAR "tract" aland coords with
                  | none => PipelineOutcome.crash
                  | some r => PipelineOutcome.ok r

/-- Validation-level well-typedness of an `Optional[int]` source cell. -/
def optValIntOk : Val → Bool
  | none => true
  | some q => q.den == 1

/-- Well-typedness of the critical ACS payload at every place
`_format_response_data` feeds it to an int/str field or to unguarded
arithmetic; each conjunct corresponds to one crash path of
`format_response_data`.  Holds for every payload whose numeric cells are
integers wherever an int field reads them. -/
def formatWellTyped (m : VariableMap)
    (trend projection : List PopulationTrendPoint) : Bool :=
  !m.isEmpty
  && (totalPopulationStep m trend projection).isSome
  && (pyOptInt (pyGet m "B19013_001E")).isSome
  && (percentRenterStep m).isSome
  && (pyOptInt (pyGet m "B25077_001E")).isSome
  && (pyOptInt (pyGet m "B25064_001E")).isSome
  && (pyReqInt (bucketSum m under18Codes)).isSome
  && (pyReqInt (bucketSum m age18to34Codes)).isSome
  && (pyReqInt (bucketSum m age35to64Codes)).isSome
  && (pyReqInt (bucketSum m over65Codes)).isSome
  && (pyReqInt (getOr0 m "B01001_002E")).isSome
  && (pyReqInt (getOr0 m "B01001_026E")).isSome
  && (pyGetD m "NAME" 0).isSome

/-- Well-typedness of the pipeline's critical-payload reads, including the
trend-reconstruction step: the latest population is an integer when present
and the formatting checks of `formatWellTyped` pass on the reconstructed
trend and projection. -/
def gAcsWellTyped (g : GatherResults) : Bool :=
  match g.latest_year_tract_data, g.historical_tract_trend, g.county_trend with
  | TaskOutcome.value (some m), TaskOutcome.value historical, TaskOutcome.value county =>
    match reconstruct_tract_trend m historical with
    | none => false
    | some tract_trend =>
      formatWellTyped m tract_trend (project_tract_population (some m) county)
  | _, _, _ => true

/-- When the critical payload is well-typed where read, the record
formatting returns a record, and its `migration`, `natural_increase` and
`walkability` fields are exactly the values handed to it. -/
theorem format_response_data_runs (m : VariableMap)
    (trend projection county_trend : List PopulationTrendPoint)
    (walkability : Option WalkabilityScores)
    (migration : Option MigrationData)
    (natural_increase : Option NaturalIncreaseData)
    (address : String) (year : ℤ) (geo_level : String)
    (aland : ℤ) (coordinates : Coordinates)
    (h : formatWellTyped m trend projection = true) :
    ∃ r, format_response_data m trend projection county_trend walkability
        migration natural_increase address year geo_level aland coordinates = some r
      ∧ r.migration = migration ∧ r.natural_increase = natural_increase
      ∧ r.walkability = walkability := by
  simp only [formatWellTyped, Bool.and_eq_true] at h
  obtain ⟨⟨⟨⟨⟨⟨⟨⟨⟨⟨⟨⟨h1, h2⟩, h3⟩, h4⟩, h5⟩, h6⟩, h7⟩, h8⟩, h9⟩, h10⟩, h11⟩, h12⟩, h13⟩ := h
  have hne : m.isEmpty = false := by
    cases hb : m.isEmpty
    · rfl
    · rw [hb] at h1; exact absurd h1 (by simp)
  obtain ⟨tp, htp⟩ := Option.isSome_iff_exists.mp h2
  obtain ⟨mhi, hmhi⟩ := Option.isSome_iff_exists.mp h3
  obtain ⟨rent, hrent⟩ := Option.isSome_iff_exists.mp h4
  obtain ⟨mhv, hmhv⟩ := Option.isSome_iff_exists.mp h5
  obtain ⟨mgr, hmgr⟩ := Option.isSome_iff_exists.mp h6
  obtain ⟨u18, hu18⟩ := Option.isSome_iff_exists.mp h7
  obtain ⟨a1834, ha1834⟩ := Option.isSome_iff_exists.mp h8
  obtain ⟨a3564, ha3564⟩ := Option.isSome_iff_exists.mp h9
  obtain ⟨o65, ho65⟩ := Option.isSome_iff_exists.mp h10
  obtain ⟨male, hmale⟩ := Option.isSome_iff_exists.mp h11
  obtain ⟨female, hfemale⟩ := Option.isSome_iff_exists.mp h12
  obtain ⟨nm, hnm⟩ := Option.isSome_iff_exists.mp h13
  unfold format_response_data
  rw [if_neg (by simp [hne])]
  simp only [bind, Option.bind, htp, hmhi, hrent, hmhv, hmgr, hu18, ha1834, ha3564,
    ho65, hmale, hfemale, hnm]
  exact ⟨_, rfl, rfl, rfl, rfl⟩

/-- A settled-task assignment in which the only failed task is the optional
flows fetch, but the succeeded drivers payload stores `POP = None` — the
`pep_drivers.get("POP", 0) > 0` comparison of `census_service.py` line 147
then raises a `TypeError`. -/
def gPopNone : GatherResults :=
  { latest_year_tract_data :=
      TaskOutcome.value (some [("NAME", none), ("B01003_001E", some 100)])
    historical_tract_trend := TaskOutcome.value []
    county_trend := TaskOutcome.value []
    county_drivers := TaskOutcome.value (some [("POP", none)])
    migration_flows := TaskOutcome.exception
    walkability := TaskOutcome.value none }

/-- A settled-task assignment in which no task failed at all, but the
critical payload stores the non-integral population `5/2` (producible by
`_fetch_acs_data` line 418) — `PopulationTrendPoint(population=...)` at
`census_service.py` line 116 then raises a pydantic `ValidationError`. -/
def gFracPop : GatherResults :=
  { latest_year_tract_data :=
      TaskOutcome.value (some [("NAME", some 1), ("B01003_001E", some (5 / 2))])
    historical_tract_trend := TaskOutcome.value []
    county_trend := TaskOutcome.value []
    county_drivers := TaskOutcome.value none
    migration_flows := TaskOutcome.value none
    walkability := TaskOutcome.value none }

/-- C1 is refuted as stated: "the pipeline still returns a record" fails in
two ways when no mandatory task failed.  With only the optional flows task
failed and a drivers payload storing `POP = None`, the assembly crashes at
line 147; and with no failed task at all but a non-integral latest
population, the trend reconstruction crashes at line 116.  In both runs the
outcome is an uncaught exception, not a record. -/
theorem claim_C1_counterexample :
    (latestTruthy gPopNone = true
      ∧ gPopNone.historical_tract_trend ≠ TaskOutcome.exception
      ∧ gPopNone.county_trend ≠ TaskOutcome.exception
      ∧ gPopNone.migration_flows = TaskOutcome.exception
      ∧ settle_and_derive "a" 0 ⟨0, 0⟩ gPopNone = PipelineOutcome.crash)
    ∧ (latestTruthy gFracPop = true
      ∧ gFracPop.historical_tract_trend ≠ TaskOutcome.exception
      ∧ gFracPop.county_trend ≠ TaskOutcome.exception
      ∧ gFracPop.county_drivers ≠ TaskOutcome.exception
      ∧ gFracPop.migration_flows ≠ TaskOutcome.exception
      ∧ gFracPop.walkability ≠ TaskOutcome.exception
      ∧ settle_and_derive "a" 0 ⟨0, 0⟩ gFracPop = PipelineOutcome.crash) := by
  constructor
  · exact ⟨rfl, fun h => TaskOutcome.noConfusion h, fun h => TaskOutcome.noConfusion h,
      rfl, rfl⟩
  · refine ⟨rfl, fun h => TaskOutcome.noConfusion h, fun h => TaskOutcome.noConfusion h,
      fun h => TaskOutcome.noConfusion h, fun h => TaskOutcome.noConfusion h,
      fun h => TaskOutcome.noConfusion h, ?_⟩
    have hrec : reconstruct_tract_trend
        [("NAME", some 1), ("B01003_001E", some (5 / 2))] [] = none := by
      unfold reconstruct_tract_trend
      have hg : pyGet [("NAME", some 1), ("B01003_001E", some (5 / 2))] "B01003_001E"
          = some (5 / 2 : ℚ) := rfl
      rw [hg]
      simp only []
      rw [if_neg (by norm_num)]
    simp [settle_and_derive, gFracPop, hrec, truthyOptMap]

/-- C1 (amended): the escalation of `census_service.py` lines 98-109 and the
derivation that follows it.  (i) Whenever a mandatory task failed, the
pipeline aborts with a 503 naming a failed mandatory task; (ii) every 503
names a failed mandatory task; (iii) when no mandatory task failed and
every successfully fetched payload is well-typed where the pipeline reads
it, the pipeline returns a record whose `migration` / `natural_increase` /
`walkability` fields are null for the failed optional tasks. -/
theorem claim_C1_fanout_failure_policy (address : String) (aland : ℤ)
    (coords : Coordinates) (g : GatherResults) :
    ((∃ t, mandatoryFailed g t) →
      ∃ t, settle_and_derive address aland coords g
          = PipelineOutcome.serviceUnavailable t ∧ mandatoryFailed g t)
    ∧ (∀ t, settle_and_derive address aland coords g
          = PipelineOutcome.serviceUnavailable t → mandatoryFailed g t)
    ∧ (latestTruthy g = true →
        g.historical_tract_trend ≠ TaskOutcome.exception →
        g.county_trend ≠ TaskOutcome.exception →
        gDriversWellTyped g = true →
        gAcsWellTyped g = true →
        ∃ r : PopulationDataResponse,
          settle_and_derive address aland coords g = PipelineOutcome.ok r
          ∧ (g.county_drivers = TaskOutcome.exception →
              r.migration = none ∧ r.natural_increase = none)
          ∧ (g.migration_flows = TaskOutcome.exception → r.migration = none)
          ∧ (g.walkability = TaskOutcome.exception → r.walkability = none)) := by
  obtain ⟨lat, hist, cty, drv, flw, wlk⟩ := g
  cases lat with
  | exception =>
    refine ⟨fun _ => ⟨"latest_year_tract_data", rfl, Or.inl ⟨rfl, rfl⟩⟩, ?_, ?_⟩
    · intro t ht
      have h1 : "latest_year_tract_data" = t := by
        have h0 := ht
        simp only [settle_and_derive] at h0
        exact (PipelineOutcome.serviceUnavailable.injEq _ _).mp h0
      exact Or.inl ⟨h1.symm, rfl⟩
    · intro hlt
      simp [latestTruthy] at hlt
  | value mOpt =>
    by_cases htr : truthyOptMap mOpt = true
    · cases hist with
      | exception =>
        refine ⟨fun _ => ⟨"historical_tract_trend", ?_, Or.inr (Or.inl ⟨rfl, rfl⟩)⟩, ?_, ?_⟩
        · simp only [settle_and_derive]
          rw [if_neg (by simp [htr])]
        · intro t ht
          simp only [settle_and_derive] at ht
          rw [if_neg (by simp [htr])] at ht
          have h1 : "historical_tract_trend" = t :=
            (PipelineOutcome.serviceUnavailable.injEq _ _).mp ht
          exact Or.inr (Or.inl ⟨h1.symm, rfl⟩)
        · intro _ hh
          exact absurd rfl hh
      | value histv =>
        cases cty with
        | exception =>
          refine ⟨fun _ => ⟨"county_trend", ?_, Or.inr (Or.inr ⟨rfl, rfl⟩)⟩, ?_, ?_⟩
          · simp only [settle_and_derive]
            rw [if_neg (by simp [htr])]
          · intro t ht
            simp only [settle_and_derive] at ht
            rw [if_neg (by simp [htr])] at ht
            have h1 : "county_trend" = t :=
              (PipelineOutcome.serviceUnavailable.injEq _ _).mp ht
            exact Or.inr (Or.inr ⟨h1.symm, rfl⟩)
          · intro _ _ hc
            exact absurd rfl hc
        | value ctyv =>
          cases mOpt with
          | none => simp [truthyOptMap] at htr
          | some m =>
            have hset : settle_and_derive address aland coords
                ⟨TaskOutcome.value (some m), TaskOutcome.value histv,
                  TaskOutcome.value ctyv, drv, flw, wlk⟩
                = match reconstruct_tract_trend m histv with
                  | none => PipelineOutcome.crash
                  | some tract_trend =>
                    match compute_migration_data (settledValue flw) (settledValue drv) with
                    | none => PipelineOutcome.crash
                    | some migration =>
                      match compute_natural_increase (settledValue drv) with
                      | none => PipelineOutcome.crash
                      | some natural_increase =>
                        match format_response_data m tract_trend
                            (project_tract_population (some m) ctyv) ctyv
                            (settledValue wlk) migration natural_increase
                            address LATEST_ACS_YEAR "tract" aland coords with
                        | none => PipelineOutcome.crash
                        | some r => PipelineOutcome.ok r := by
              simp only [settle_and_derive]
              rw [if_neg (by simp [htr])]
            refine ⟨?_, ?_, ?_⟩
            · intro ⟨t, hmf⟩
              exfalso
              rcases hmf with ⟨_, h⟩ | ⟨_, h⟩ | ⟨_, h⟩
              · simp [latestTruthy, htr] at h
              · exact TaskOutcome.noConfusion h
              · exact TaskOutcome.noConfusion h
            · intro t ht
              exfalso
              rw [hset] at ht
              cases hrec : reconstruct_tract_trend m histv with
              | none => rw [hrec] at ht; exact PipelineOutcome.noConfusion ht
              | some tt =>
                rw [hrec] at ht
                simp only [] at ht
                cases hmig : compute_migration_data (settledValue flw) (settledValue drv) with
                | none => rw [hmig] at ht; exact PipelineOutcome.noConfusion ht
                | some mig =>
                  rw [hmig] at ht
                  simp only [] at ht
                  cases hnat : compute_natural_increase (settledValue drv) with
                  | none => rw [hnat] at ht; exact PipelineOutcome.noConfusion ht
                  | some natv =>
                    rw [hnat] at ht
                    simp only [] at ht
                    cases hfmt : format_response_data m tt
                        (project_tract_population (some m) ctyv) ctyv
                        (settledValue wlk) mig natv
                        address LATEST_ACS_YEAR "tract" aland coords with
                    | none => rw [hfmt] at ht; exact PipelineOutcome.noConfusion ht
                    | some r => rw [hfmt] at ht; exact PipelineOutcome.noConfusion ht
            · intro _ _ _ hDrv hAcs
              have hAcs2 : (match reconstruct_tract_trend m histv with
                  | none => false
                  | some tt =>
                    formatWellTyped m tt (project_tract_population (some m) ctyv)) = true := by
                simpa [gAcsWellTyped] using hAcs
              cases hrec : reconstruct_tract_trend m histv with
              | none =>
                rw [hrec] at hAcs2
                simp at hAcs2
              | some tt =>
                rw [hrec] at hAcs2
                simp only [] at hAcs2
                have hw2 : ∀ pepm : DriversMap, settledValue drv = some pepm →
                    wellTypedDrivers pepm = true := by
                  intro pepm hp
                  cases drv with
                  | exception => exact Option.noConfusion hp
                  | value v =>
                    have hv : v = some pepm := hp
                    subst hv
                    simpa [gDriversWellTyped] using hDrv
                obtain ⟨mig, hmig⟩ := Option.isSome_iff_exists.mp
                  (compute_migration_data_isSome (settledValue flw) (settledValue drv) hw2)
                obtain ⟨natv, hnat⟩ := Option.isSome_iff_exists.mp
                  (compute_natural_increase_isSome (settledValue drv) hw2)
                obtain ⟨r, hfmt, hrm, hrn, hrw⟩ := format_response_data_runs m tt
                  (project_tract_population (some m) ctyv) ctyv (settledValue wlk)
                  mig natv address LATEST_ACS_YEAR "tract" aland coords hAcs2
                refine ⟨r, ?_, ?_, ?_, ?_⟩
                · rw [hset, hrec]
                  simp only []
                  rw [hmig]
                  simp only []
                  rw [hnat]
                  simp only []
                  rw [hfmt]
                · intro hdrv
                  subst hdrv
                  have hm2 := hmig
                  have hn2 := hnat
                  rw [show settledValue (TaskOutcome.exception :
                        TaskOutcome (Option DriversMap)) = none from rfl] at hm2 hn2
                  rw [compute_migration_data_pep_none] at hm2
                  rw [compute_natural_increase_none] at hn2
                  constructor
                  · rw [hrm]
                    injection hm2 with h
                    exact h.symm
                  · rw [hrn]
                    injection hn2 with h
                    exact h.symm
                · intro hflw
                  subst hflw
                  have hm2 := hmig
                  rw [show settledValue (TaskOutcome.exception :
                        TaskOutcome (Option FlowsMap)) = none from rfl] at hm2
                  rw [compute_migration_data_flows_none] at hm2
                  rw [hrm]
                  injection hm2 with h
                  exact h.symm
                · intro hwlk
                  subst hwlk
                  rw [hrw]
                  rfl
    · have htr2 : truthyOptMap mOpt = false := by
        cases hb : truthyOptMap mOpt
        · rfl
        · exact absurd hb htr
      have hset : settle_and_derive address aland coords
          ⟨TaskOutcome.value mOpt, hist, cty, drv, flw, wlk⟩
          = PipelineOutcome.serviceUnavailable "latest_year_tract_data" := by
        simp only [settle_and_derive]
        rw [if_pos (by simp [htr2])]
      refine ⟨fun _ => ⟨"latest_year_tract_data", hset,
        Or.inl ⟨rfl, by simp [latestTruthy, htr2]⟩⟩, ?_, ?_⟩
      · intro t ht
        rw [hset] at ht
        have h1 : "latest_year_tract_data" = t :=
          (PipelineOutcome.serviceUnavailable.injEq _ _).mp ht
        exact Or.inl ⟨h1.symm, by simp [latestTruthy, htr2]⟩
      · intro hlt
        exfalso
        simp [latestTruthy, htr2] at hlt

/-- The critical payload of the all-optional-failures witness run: a
non-`None` name and the integer population 100. -/
def allOkPayload : VariableMap := [("NAME", some 1), ("B01003_001E", some 100)]

/-- A settled-task assignment in which every optional task failed, the
mandatory tasks succeeded, and the critical payload is well-typed. -/
def allOkScenario : GatherResults :=
  { latest_year_tract_data := TaskOutcome.value (some allOkPayload)
    historical_tract_trend := TaskOutcome.value []
    county_trend := TaskOutcome.value []
    county_drivers := TaskOutcome.exception
    migration_flows := TaskOutcome.exception
    walkability := TaskOutcome.exception }

/-- The witness payload passes every well-typedness check the pipeline
performs on the critical ACS payload. -/
theorem gAcsWellTyped_allOkScenario : gAcsWellTyped allOkScenario = true := by
  have hb : ∀ codes : List String, (∀ k ∈ codes, getOr0 allOkPayload k = 0) →
      bucketSum allOkPayload codes = 0 := by
    intro codes h
    unfold bucketSum
    apply List.sum_eq_zero
    intro x hx
    obtain ⟨k, hk, rfl⟩ := List.mem_map.mp hx
    exact h k hk
  have hb7 : bucketSum allOkPayload under18Codes = 0 := hb _ (by decide)
  have hb8 : bucketSum allOkPayload age18to34Codes = 0 := hb _ (by decide)
  have hb9 : bucketSum allOkPayload age35to64Codes = 0 := hb _ (by decide)
  have hb10 : bucketSum allOkPayload over65Codes = 0 := hb _ (by decide)
  have hrec : reconstruct_tract_trend allOkPayload []
      = some [{ year := LATEST_ACS_YEAR, population := 100 }] := rfl
  have hproj : project_tract_population (some allOkPayload) [] = [] := rfl
  have hfmt : formatWellTyped allOkPayload
      [{ year := LATEST_ACS_YEAR, population := 100 }] [] = true := by
    simp only [formatWellTyped, Bool.and_eq_true]
    refine ⟨⟨⟨⟨⟨⟨⟨⟨⟨⟨⟨⟨?_, ?_⟩, ?_⟩, ?_⟩, ?_⟩, ?_⟩, ?_⟩, ?_⟩, ?_⟩, ?_⟩, ?_⟩, ?_⟩, ?_⟩
    · decide
    · decide
    · decide
    · decide
    · decide
    · decide
    · rw [show (pyReqInt (bucketSum allOkPayload under18Codes)).isSome
          = (pyReqInt 0).isSome from by rw [hb7]]
      decide
    · rw [show (pyReqInt (bucketSum allOkPayload age18to34Codes)).isSome
          = (pyReqInt 0).isSome from by rw [hb8]]
      decide
    · rw [show (pyReqInt (bucketSum allOkPayload age35to64Codes)).isSome
          = (pyReqInt 0).isSome from by rw [hb9]]
      decide
    · rw [show (pyReqInt (bucketSum allOkPayload over65Codes)).isSome
          = (pyReqInt 0).isSome from by rw [hb10]]
      decide
    · decide
    · decide
    · decide
  simp only [gAcsWellTyped, allOkScenario]
  rw [hrec]
  simp only []
  rw [hproj]
  exact hfmt

/-- Witness for C1: in the run where all three optional tasks failed and
the mandatory data is well-typed, the pipeline returns a record whose
`migration`, `natural_increase` and `walkability` fields are null. -/
theorem claim_C1_fanout_failure_policy_witness :
    latestTruthy allOkScenario = true
    ∧ allOkScenario.historical_tract_trend ≠ TaskOutcome.exception
    ∧ allOkScenario.county_trend ≠ TaskOutcome.exception
    ∧ gDriversWellTyped allOkScenario = true
    ∧ gAcsWellTyped allOkScenario = true
    ∧ allOkScenario.county_drivers = TaskOutcome.exception
    ∧ allOkScenario.migration_flows = TaskOutcome.exception
    ∧ allOkScenario.walkability = TaskOutcome.exception
    ∧ ∃ r : PopulationDataResponse,
        settle_and_derive "a" 0 ⟨0, 0⟩ allOkScenario = PipelineOutcome.ok r
        ∧ r.migration = none ∧ r.natural_increase = none ∧ r.walkability = none := by
  have hAcs : gAcsWellTyped allOkScenario = true := gAcsWellTyped_allOkScenario
  obtain ⟨r, hok, hdrv, hflw, hwlk⟩ :=
    (claim_C1_fanout_failure_policy "a" 0 ⟨0, 0⟩ allOkScenario).2.2 rfl
      (fun h => TaskOutcome.noConfusion h) (fun h => TaskOutcome.noConfusion h) rfl hAcs
  exact ⟨rfl, fun h => TaskOutcome.noConfusion h, fun h => TaskOutcome.noConfusion h,
    rfl, hAcs, rfl, rfl, rfl,
    r, hok, (hdrv rfl).1, (hdrv rfl).2, hwlk rfl⟩
